import Mathlib

/-!
Verification development for the ebaws orchestrator (ebaws.py).

The definitions below are shallow embeddings of the Python source under
`src/ebaws/`: `ejbca.py` (interactive process driver `cli_cmd` and its
trigger/response answer functions), `cli.py` (domain assignment loops of
`do_init` and `do_onboot`, the destructive-confirmation prelude of
`do_init`, the renewal decision of `do_renew`/`le_renew`, the prompt
`ask_proceed_quit`, and the execution guard `check_pid`),
`ebsysconfig.py` (`create_swap`), and `config.py` (`Config`).

Python string primitives (`in`, `startswith`, `strip`, `lower`) are
re-implemented over `List Char` so that every definition evaluates inside
the kernel.
-/

/-! ## String primitives (Python `startswith`, `in`, `strip`, `lower`) -/

/-- Pattern `p` is a prefix of `s` (Python `s.startswith(p)` on char lists). -/
def isPrefixL : List Char → List Char → Bool
  | [], _ => true
  | _ :: _, [] => false
  | p :: ps, c :: cs => p == c && isPrefixL ps cs

/-- Pattern occurs as a contiguous substring (Python `pat in s` on char lists). -/
def containsL (s pat : List Char) : Bool :=
  match s with
  | [] => isPrefixL pat []
  | _ :: rest => isPrefixL pat s || containsL rest pat

/-- Whitespace characters removed by Python `str.strip()` (the ones relevant here). -/
def isWs (c : Char) : Bool :=
  c == ' ' || c == '\t' || c == '\n' || c == '\r'

/-- Python `str.strip()` on char lists. -/
def stripL (s : List Char) : List Char :=
  ((s.dropWhile isWs).reverse.dropWhile isWs).reverse

/-- Python `s.startswith(pat)`. -/
def strStartsWith (s pat : String) : Bool := isPrefixL pat.data s.data

/-- Python `pat in s`. -/
def strContains (s pat : String) : Bool := containsL s.data pat.data

/-- Python `s.strip()`. -/
def strip (s : String) : String := String.mk (stripL s.data)

/-- Code point of the lower-cased character (ASCII case folding, Python `str.lower`). -/
def lowerNat (c : Char) : Nat :=
  if 65 ≤ c.toNat && c.toNat ≤ 90 then c.toNat + 32 else c.toNat

/-- Case-insensitive prefix test on char lists. -/
def ciPrefixL : List Char → List Char → Bool
  | [], _ => true
  | _ :: _, [] => false
  | p :: ps, c :: cs => (lowerNat p == lowerNat c) && ciPrefixL ps cs

/-- Case-insensitive substring test on char lists. -/
def ciContainsL (s pat : List Char) : Bool :=
  match s with
  | [] => ciPrefixL pat []
  | _ :: rest => ciPrefixL pat s || ciContainsL rest pat

/-- Case-insensitive substring test, the matching discipline the spec ascribes
to the driver (used only to state the spec side of claim C4). -/
def ciContains (s pat : String) : Bool := ciContainsL s.data pat.data

/-- Concatenation of the images of a list-valued function (Python list appends
performed once per element of the input). -/
def catMap (f : α → List β) : List α → List β
  | [] => []
  | x :: xs => f x ++ catMap f xs

/-! ## Interactive process driver (`Ejbca.cli_cmd`, ejbca.py 148-251)

A run of `cli_cmd` is modelled by the lines it pulls from the child process:
the lines seen while `p.commands[0].returncode is None` (the live loop,
lines 181-219), in arrival order and tagged with their channel, followed by
the lines drained by `p.stdout.readlines()` / `p.stderr.readlines()` after
the exit status became available (lines 224-243).  A write to the `feeder`
is recorded as the string fed, tagged with the phase it happened in. -/

/-- One line pulled from the child process, tagged with its channel. -/
inductive StreamLine
  | outLine (s : String)
  | errLine (s : String)
deriving DecidableEq

/-- The configurable reactive inputs of `cli_cmd`: the optional per-line
callbacks (given by the lists of strings they feed for a line) and the
`ant_answer` default-rules switch. -/
structure CliCfg where
  on_out : Option (String → List String)
  on_err : Option (String → List String)
  ant_answer : Bool

/-- Accumulated observable state of one `cli_cmd` run: captured output and
error lines, lines written to the log sink, and the strings fed to the
child process input, split by the phase in which the feed happened. -/
structure CliState where
  out_acc : List String
  err_acc : List String
  logged : List String
  liveFeeds : List String
  drainFeeds : List String
deriving DecidableEq

/-- The state at the start of a `cli_cmd` run. -/
def initCliState : CliState := ⟨[], [], [], [], []⟩

/-- Default answering of ant prompts in the live loop (ejbca.py 198-202):
a line whose stripped form starts with `Please enter`, or else with
`[input] Please enter`, is answered with a bare line break. -/
def ant_answer_feeds (out : String) : List String :=
  if strStartsWith (strip out) "Please enter" then ["\n"]
  else if strStartsWith (strip out) "[input] Please enter" then ["\n"]
  else []

/-- What an output line causes to be fed during the live loop
(ejbca.py 196-202): the custom callback if present, else the default ant
answers if `ant_answer` is set. -/
def liveOutFeeds (cfg : CliCfg) (s : String) : List String :=
  match cfg.on_out with
  | some f => f s
  | none => if cfg.ant_answer then ant_answer_feeds s else []

/-- What an error line causes to be fed during the live loop
(ejbca.py 215-216): only the custom error callback, never the ant answers. -/
def liveErrFeeds (cfg : CliCfg) (s : String) : List String :=
  match cfg.on_err with
  | some f => f s
  | none => []

/-- One iteration of the live loop of `cli_cmd` (ejbca.py 181-219): an empty
line is skipped; a non-empty line is accumulated, logged, and reacted to. -/
def liveStep (cfg : CliCfg) (st : CliState) : StreamLine → CliState
  | .outLine s =>
    if s.length = 0 then st
    else
      { st with out_acc := st.out_acc ++ [s], logged := st.logged ++ [s],
                liveFeeds := st.liveFeeds ++ liveOutFeeds cfg s }
  | .errLine s =>
    if s.length = 0 then st
    else
      { st with err_acc := st.err_acc ++ [s], logged := st.logged ++ [s],
                liveFeeds := st.liveFeeds ++ liveErrFeeds cfg s }

/-- What a drained output line causes to be fed after exit (ejbca.py 231-232):
the custom callback is still invoked with the feeder; the `ant_answer`
default rules are not applied in the drain loop. -/
def drainOutFeeds (cfg : CliCfg) (s : String) : List String :=
  match cfg.on_out with
  | some f => f s
  | none => []

/-- What a drained error line causes to be fed after exit (ejbca.py 242-243). -/
def drainErrFeeds (cfg : CliCfg) (s : String) : List String :=
  match cfg.on_err with
  | some f => f s
  | none => []

/-- Processing of one output line drained after process exit
(ejbca.py 226-232): accumulate, log, and invoke the callback if present. -/
def drainOutStep (cfg : CliCfg) (st : CliState) (s : String) : CliState :=
  { st with out_acc := st.out_acc ++ [s], logged := st.logged ++ [s],
            drainFeeds := st.drainFeeds ++ drainOutFeeds cfg s }

/-- Processing of one error line drained after process exit
(ejbca.py 236-243). -/
def drainErrStep (cfg : CliCfg) (st : CliState) (s : String) : CliState :=
  { st with err_acc := st.err_acc ++ [s], logged := st.logged ++ [s],
            drainFeeds := st.drainFeeds ++ drainErrFeeds cfg s }

/-- The line-processing behaviour of one `Ejbca.cli_cmd` run
(ejbca.py 148-251): the live loop over the interleaved lines, then the
drain of the remaining buffered output lines, then of the error lines. -/
def cli_cmd (cfg : CliCfg) (live : List StreamLine) (restOut restErr : List String) : CliState :=
  restErr.foldl (drainErrStep cfg)
    (restOut.foldl (drainOutStep cfg) (live.foldl (liveStep cfg) initCliState))

/-- The interactive answerer for `ant install` (`Ejbca.ant_install_answer`,
ejbca.py 271-284), installed as the `on_out` callback by `ant_install`. -/
def ant_install_answer (javaPass httpPass superadminPass : String) (out : String) : List String :=
  let o := strip out
  if strContains o "truststore with the CA certificate for https" then [javaPass ++ "\n"]
  else if strContains o "keystore with the TLS key for https" then [httpPass ++ "\n"]
  else if strContains o "the superadmin password" then [superadminPass ++ "\n"]
  else if strContains o "password CA token password" then ["\n"]
  else if strStartsWith o "Please enter" then ["\n"]
  else if strStartsWith o "[input] Please enter" then ["\n"]
  else []

/-- The driver configuration used by `Ejbca.ant_install` (ejbca.py 286-291):
`ant_install_answer` as output callback, no error callback, ant answers on. -/
def antInstallCfg : CliCfg :=
  ⟨some (ant_install_answer "javapw" "httppw" "superpw"), none, true⟩

/-- The driver configuration of a plain ant command (ejbca.py 253-256):
no custom callbacks, default ant answering enabled. -/
def defaultAnswerCfg : CliCfg := ⟨none, none, true⟩

/-- Combined default prompt-continuation predicate of the live loop
(ejbca.py 199-202). -/
def antPromptMatch (s : String) : Bool :=
  strStartsWith (strip s) "Please enter" || strStartsWith (strip s) "[input] Please enter"

theorem ant_answer_feeds_eq (s : String) :
    ant_answer_feeds s = if antPromptMatch s then ["\n"] else [] := by
  unfold ant_answer_feeds antPromptMatch
  cases h1 : strStartsWith (strip s) "Please enter" <;>
    cases h2 : strStartsWith (strip s) "[input] Please enter" <;> simp

/-! Spec-side descriptions of what each line contributes to each accumulator,
used to state and prove the per-line behaviour of the fold. -/

/-- Contribution of one live line to the captured output lines. -/
def lineAccOut : StreamLine → List String
  | .outLine s => if s.length = 0 then [] else [s]
  | .errLine _ => []

/-- Contribution of one live line to the captured error lines. -/
def lineAccErr : StreamLine → List String
  | .outLine _ => []
  | .errLine s => if s.length = 0 then [] else [s]

/-- Contribution of one live line to the log sink. -/
def lineLog : StreamLine → List String
  | .outLine s => if s.length = 0 then [] else [s]
  | .errLine s => if s.length = 0 then [] else [s]

/-- Contribution of one live line to the input feeds. -/
def lineFeedsLive (cfg : CliCfg) : StreamLine → List String
  | .outLine s => if s.length = 0 then [] else liveOutFeeds cfg s
  | .errLine s => if s.length = 0 then [] else liveErrFeeds cfg s

theorem live_fold_spec (cfg : CliCfg) :
    ∀ (live : List StreamLine) (st : CliState),
      live.foldl (liveStep cfg) st =
        ⟨st.out_acc ++ catMap lineAccOut live,
         st.err_acc ++ catMap lineAccErr live,
         st.logged ++ catMap lineLog live,
         st.liveFeeds ++ catMap (lineFeedsLive cfg) live,
         st.drainFeeds⟩ := by
  intro live
  induction live with
  | nil => intro st; simp [catMap]
  | cons l ls ih =>
    intro st
    rw [List.foldl_cons, ih]
    cases l with
    | outLine s =>
      by_cases h : s.length = 0 <;>
        simp [liveStep, lineAccOut, lineAccErr, lineLog, lineFeedsLive, h, catMap,
              List.append_assoc]
    | errLine s =>
      by_cases h : s.length = 0 <;>
        simp [liveStep, lineAccOut, lineAccErr, lineLog, lineFeedsLive, h, catMap,
              List.append_assoc]

theorem drain_out_fold_spec (cfg : CliCfg) :
    ∀ (rest : List String) (st : CliState),
      rest.foldl (drainOutStep cfg) st =
        ⟨st.out_acc ++ rest, st.err_acc, st.logged ++ rest, st.liveFeeds,
         st.drainFeeds ++ catMap (drainOutFeeds cfg) rest⟩ := by
  intro rest
  induction rest with
  | nil => intro st; simp [catMap]
  | cons r rs ih =>
    intro st
    rw [List.foldl_cons, ih]
    simp [drainOutStep, catMap, List.append_assoc]

theorem drain_err_fold_spec (cfg : CliCfg) :
    ∀ (rest : List String) (st : CliState),
      rest.foldl (drainErrStep cfg) st =
        ⟨st.out_acc, st.err_acc ++ rest, st.logged ++ rest, st.liveFeeds,
         st.drainFeeds ++ catMap (drainErrFeeds cfg) rest⟩ := by
  intro rest
  induction rest with
  | nil => intro st; simp [catMap]
  | cons r rs ih =>
    intro st
    rw [List.foldl_cons, ih]
    simp [drainErrStep, catMap, List.append_assoc]

theorem catMap_congr (f g : α → List β) (h : ∀ x, f x = g x) :
    ∀ l : List α, catMap f l = catMap g l := by
  intro l
  induction l with
  | nil => rfl
  | cons x xs ih => simp [catMap, h x, ih]

theorem catMap_nil (l : List α) : catMap (fun _ => ([] : List β)) l = [] := by
  induction l with
  | nil => rfl
  | cons x xs ih => simp [catMap, ih]

/-! ## Trigger/response rules as ordered data (spec view of claim C4) -/

/-- Kind of a trigger: substring occurrence (Python `in`) or prefix test
(Python `startswith`). -/
inductive TrigKind
  | subMatch
  | preMatch
deriving DecidableEq

/-- One trigger/response rule: a pattern, how it is matched, and the full
string fed on a match. -/
structure TrigRule where
  kind : TrigKind
  pat : String
  response : String

/-- Whether a rule matches a line, case-sensitively. -/
def ruleMatches (line : String) (r : TrigRule) : Bool :=
  match r.kind with
  | .subMatch => strContains line r.pat
  | .preMatch => strStartsWith line r.pat

/-- Response of the first matching rule, scanning in order. -/
def firstResponse (line : String) : List TrigRule → Option String
  | [] => none
  | r :: rs => if ruleMatches line r then some r.response else firstResponse line rs

/-- The ordered rule set hard-coded in `Ejbca.ant_install_answer`
(ejbca.py 271-284), responses already carrying their terminating line
break. -/
def antInstallRules (javaPass httpPass superadminPass : String) : List TrigRule :=
  [⟨.subMatch, "truststore with the CA certificate for https", javaPass ++ "\n"⟩,
   ⟨.subMatch, "keystore with the TLS key for https", httpPass ++ "\n"⟩,
   ⟨.subMatch, "the superadmin password", superadminPass ++ "\n"⟩,
   ⟨.subMatch, "password CA token password", "\n"⟩,
   ⟨.preMatch, "Please enter", "\n"⟩,
   ⟨.preMatch, "[input] Please enter", "\n"⟩]

/-- Claim C4, counterexample.  The spec says the response of the first
case-insensitive substring match is written.  The line below is a
case-variant of the first trigger: it matches case-insensitively, yet
`ant_install_answer` feeds nothing, because the code matches with the
case-sensitive Python `in` and `startswith` operators. -/
theorem c4_counterexample :
    ciContains "TRUSTSTORE WITH THE CA CERTIFICATE FOR HTTPS"
      "truststore with the CA certificate for https" = true ∧
    ant_install_answer "javapw" "httppw" "superpw"
      "TRUSTSTORE WITH THE CA CERTIFICATE FOR HTTPS" = [] := by
  constructor
  · decide
  · decide

/-- Claim C4 (amended).  For every output line handled by
`ant_install_answer`, the hard-coded trigger rules are scanned in order and
the response of the first case-sensitive match (substring match for the
password triggers, exact prefix for the two default prompt-continuation
triggers) is fed; every response of the rule set is terminated by a line
break, and the default prompt rules feed a bare line break. -/
theorem c4_amended (javaPass httpPass superadminPass : String) :
    (∀ out, ant_install_answer javaPass httpPass superadminPass out =
      (firstResponse (strip out) (antInstallRules javaPass httpPass superadminPass)).toList) ∧
    (∀ out r, firstResponse (strip out) (antInstallRules javaPass httpPass superadminPass) = some r →
      ∃ b, r = b ++ "\n") := by
  constructor
  · intro out
    simp only [ant_install_answer, antInstallRules, firstResponse, ruleMatches]
    split_ifs <;> rfl
  · intro out r h
    simp only [antInstallRules, firstResponse, ruleMatches] at h
    split_ifs at h <;> injection h with h2 <;> subst h2 <;>
      first
        | exact ⟨_, rfl⟩
        | exact ⟨"", by decide⟩

/-- Claim C4, witness for the amended theorem at a concrete prompt line. -/
theorem c4_amended_witness :
    ant_install_answer "jp" "hp" "sp" "Please enter something" =
      (firstResponse (strip "Please enter something") (antInstallRules "jp" "hp" "sp")).toList ∧
    ∃ b, "\n" = b ++ "\n" :=
  ⟨(c4_amended "jp" "hp" "sp").1 "Please enter something",
   (c4_amended "jp" "hp" "sp").2 "Please enter something" "\n" (by decide)⟩

/-- Claim C1, counterexample.  The spec guarantees no write to the child
process input after exit, and in particular that drained lines cause no
input writes.  But the drain loop still invokes the installed output
callback with the feeder: with the `ant_install` callback installed, a
prompt line drained after process exit is answered. -/
theorem c1_counterexample :
    (cli_cmd antInstallCfg [] ["Please enter something"] []).drainFeeds = ["\n"] := by
  decide

/-- Claim C1 (amended).  With the driver running only its built-in
trigger/response rules (no custom callbacks): every matching non-empty live
output line is fed exactly one response (a bare line break) and non-matching
or error lines are fed nothing; all lines drained after process exit are
still accumulated and logged; and no input write happens after the process
has exited.  (With a custom output or error callback installed, the drain
loop still invokes the callback with the feeder, so callback writes after
exit are not suppressed — see the counterexample.) -/
theorem c1_amended (live : List StreamLine) (restOut restErr : List String) :
    (cli_cmd defaultAnswerCfg live restOut restErr).drainFeeds = [] ∧
    (cli_cmd defaultAnswerCfg live restOut restErr).liveFeeds =
      catMap (fun l => match l with
        | .outLine s => if s.length ≠ 0 ∧ antPromptMatch s = true then ["\n"] else []
        | .errLine _ => []) live ∧
    (cli_cmd defaultAnswerCfg live restOut restErr).out_acc =
      catMap lineAccOut live ++ restOut ∧
    (cli_cmd defaultAnswerCfg live restOut restErr).logged =
      catMap lineLog live ++ restOut ++ restErr := by
  have hfeeds : ∀ l, lineFeedsLive defaultAnswerCfg l =
      (fun l => match l with
        | StreamLine.outLine s => if s.length ≠ 0 ∧ antPromptMatch s = true then ["\n"] else []
        | StreamLine.errLine _ => []) l := by
    intro l
    cases l with
    | outLine s =>
      by_cases h : s.length = 0
      · simp [lineFeedsLive, h]
      · simp only [lineFeedsLive, h, if_neg h]
        rw [liveOutFeeds]
        simp only [defaultAnswerCfg, ant_answer_feeds_eq]
        cases hm : antPromptMatch s <;> simp [h, hm]
    | errLine s =>
      by_cases h : s.length = 0 <;> simp [lineFeedsLive, liveErrFeeds, defaultAnswerCfg, h]
  have hdrainOut : ∀ s, drainOutFeeds defaultAnswerCfg s = [] := by
    intro s; rfl
  have hdrainErr : ∀ s, drainErrFeeds defaultAnswerCfg s = [] := by
    intro s; rfl
  unfold cli_cmd
  rw [live_fold_spec, drain_out_fold_spec, drain_err_fold_spec]
  refine ⟨?_, ?_, ?_, ?_⟩
  · simp [initCliState, catMap_congr _ _ hdrainOut, catMap_congr _ _ hdrainErr, catMap_nil]
  · simp [initCliState, catMap_congr _ _ hfeeds]
  · simp [initCliState]
  · simp [initCliState, List.append_assoc]

/-! ## Domain assignment loops (`App.do_init` cli.py 179-214, `App.do_onboot` cli.py 429-461)

One loop iteration makes one registration call to the external service;
the call either raises (`DomainOutcome.failure`) or returns the domain
list now on record (`DomainOutcome.success`).  The operator's answers to
the interactive "Do you want to try again?" prompt are a stream indexed
by the number of failures seen so far.  The loops are given explicit fuel
(number of iterations still allowed to unfold); a result of `none` means
the loop is still running after that many iterations. -/

/-- Result of one external domain registration/refresh call: the call
raised, or it returned with the recorded domain list. -/
inductive DomainOutcome
  | success (domains : List String)
  | failure
deriving DecidableEq

/-- The domain assignment loop of `App.do_init` (cli.py 179-214).  State:
call index `i`, failed-attempt counter `ctr`, success flag `domainOk`.
The loop guard is `not domain_is_ok and domain_ctr < 3`; on failure in
unattended mode the loop breaks once `attempts <= ctr + 1`, in interactive
mode it breaks when the operator declines.  The result is the pair
(success flag, failed attempts) when the loop exits. -/
def do_init_domain_loop (outcome : Nat → DomainOutcome) (answers : Nat → Bool)
    (noninteractive : Bool) (attempts : Int) :
    Nat → Nat → Nat → Bool → Option (Bool × Nat)
  | 0, _, _, _ => none
  | fuel + 1, i, ctr, domainOk =>
    if domainOk = true ∨ 3 ≤ ctr then some (domainOk, ctr)
    else
      match outcome i with
      | .success ds =>
        if 0 < ds.length then
          do_init_domain_loop outcome answers noninteractive attempts fuel (i + 1) ctr true
        else
          do_init_domain_loop outcome answers noninteractive attempts fuel (i + 1) ctr domainOk
      | .failure =>
        if noninteractive then
          if attempts ≤ ((ctr + 1 : Nat) : Int) then some (domainOk, ctr + 1)
          else do_init_domain_loop outcome answers noninteractive attempts fuel (i + 1) (ctr + 1) domainOk
        else
          if answers ctr then
            do_init_domain_loop outcome answers noninteractive attempts fuel (i + 1) (ctr + 1) domainOk
          else some (domainOk, ctr + 1)

/-- The domain refresh loop of `App.do_onboot` (cli.py 429-461): identical
body, but the loop guard is only `not domain_is_ok` — no counter bound. -/
def do_onboot_domain_loop (outcome : Nat → DomainOutcome) (answers : Nat → Bool)
    (noninteractive : Bool) (attempts : Int) :
    Nat → Nat → Nat → Bool → Option (Bool × Nat)
  | 0, _, _, _ => none
  | fuel + 1, i, ctr, domainOk =>
    if domainOk = true then some (domainOk, ctr)
    else
      match outcome i with
      | .success ds =>
        if 0 < ds.length then
          do_onboot_domain_loop outcome answers noninteractive attempts fuel (i + 1) ctr true
        else
          do_onboot_domain_loop outcome answers noninteractive attempts fuel (i + 1) ctr domainOk
      | .failure =>
        if noninteractive then
          if attempts ≤ ((ctr + 1 : Nat) : Int) then some (domainOk, ctr + 1)
          else do_onboot_domain_loop outcome answers noninteractive attempts fuel (i + 1) (ctr + 1) domainOk
        else
          if answers ctr then
            do_onboot_domain_loop outcome answers noninteractive attempts fuel (i + 1) (ctr + 1) domainOk
          else some (domainOk, ctr + 1)

theorem onboot_fail_aux (K : Nat) :
    ∀ fuel ctr i, ctr < K → K ≤ ctr + fuel →
      do_onboot_domain_loop (fun _ => .failure) (fun _ => true) true (K : Int)
        fuel i ctr false = some (false, K) := by
  intro fuel
  induction fuel with
  | zero => intro ctr i h1 h2; omega
  | succ n ih =>
    intro ctr i h1 h2
    rw [do_onboot_domain_loop]
    simp only [Bool.false_eq_true, if_false, if_true]
    by_cases hc : K = ctr + 1
    · rw [if_pos (by omega)]
      simp [hc]
    · rw [if_neg (by omega)]
      exact ih (ctr + 1) (i + 1) (by omega) (by omega)

theorem init_fail_bigK (K : Nat) (h : 3 < K) :
    do_init_domain_loop (fun _ => .failure) (fun _ => true) true (K : Int)
      5 0 0 false = some (false, 3) := by
  have h1 : ¬((K : Int) ≤ ((0 + 1 : Nat) : Int)) := by push_cast; omega
  have h2 : ¬((K : Int) ≤ ((0 + 1 + 1 : Nat) : Int)) := by push_cast; omega
  have h3 : ¬((K : Int) ≤ ((0 + 1 + 1 + 1 : Nat) : Int)) := by push_cast; omega
  rw [do_init_domain_loop]
  rw [if_neg (by simp)]
  simp only [if_true]
  rw [if_neg h1]
  rw [do_init_domain_loop]
  rw [if_neg (by simp)]
  simp only [if_true]
  rw [if_neg h2]
  rw [do_init_domain_loop]
  rw [if_neg (by simp)]
  simp only [if_true]
  rw [if_neg h3]
  rw [do_init_domain_loop]
  rw [if_pos (by omega)]

/-- Claim C2, counterexample.  Unattended mode with a configured maximum of
K = 4 attempts: the claim says the loop performs exactly 4 failed attempts
before giving up, but the install-time loop stops after 3, because its loop
guard `domain_ctr < 3` caps the failure counter independently of the
configured maximum. -/
theorem c2_counterexample :
    do_init_domain_loop (fun _ => .failure) (fun _ => true) true 4 10 0 0 false =
      some (false, 3) := by
  decide

/-- Claim C2 (amended).  In unattended mode with a configured maximum of
K ≥ 1 attempts and an always-failing registration call, the on-boot domain
loop performs exactly K failed attempts and then gives up, while the
install-time domain loop performs exactly min K 3 failed attempts, its loop
guard additionally capping the counter at 3. -/
theorem c2_amended (K : Nat) (hK : 1 ≤ K) :
    do_onboot_domain_loop (fun _ => .failure) (fun _ => true) true (K : Int)
      K 0 0 false = some (false, K) ∧
    do_init_domain_loop (fun _ => .failure) (fun _ => true) true (K : Int)
      5 0 0 false = some (false, min K 3) := by
  constructor
  · exact onboot_fail_aux K K 0 0 (by omega) (by omega)
  · rcases le_or_lt K 3 with h3 | h3
    · interval_cases K <;> decide
    · rw [Nat.min_eq_right (by omega)]
      exact init_fail_bigK K h3

/-- Claim C2, witness for the amended theorem at K = 5. -/
theorem c2_amended_witness :
    do_onboot_domain_loop (fun _ => .failure) (fun _ => true) true 5
      5 0 0 false = some (false, 5) ∧
    do_init_domain_loop (fun _ => .failure) (fun _ => true) true 5
      5 0 0 false = some (false, min 5 3) :=
  ⟨(c2_amended 5 (by decide)).1, (c2_amended 5 (by decide)).2⟩

/-- Claim C3, counterexample.  Interactive mode, the operator answers yes to
every "try again?" prompt, the registration call always fails: the claim
says the loop stops only on success or operator decline, never by
exhausting an attempt count, yet the install-time loop terminates after its
third failed attempt (no success, no decline) because of the `domain_ctr <
3` loop guard. -/
theorem c3_counterexample :
    do_init_domain_loop (fun _ => .failure) (fun _ => true) false 999 10 0 0 false =
      some (false, 3) := by
  decide

/-- Registration call behaviour that fails on the first `n` calls and then
returns one assigned domain. -/
def failsThen (n : Nat) : Nat → DomainOutcome :=
  fun i => if i < n then .failure else .success ["assigned.example.com"]

theorem onboot_interactive_aux (a : Int) :
    ∀ (m : Nat) (i ctr : Nat) (f : Nat → DomainOutcome),
      (∀ j, j < m → f (i + j) = .failure) →
      f (i + m) = .success ["assigned.example.com"] →
      do_onboot_domain_loop f (fun _ => true) false a (m + 2) i ctr false =
        some (true, ctr + m) := by
  intro m
  induction m with
  | zero =>
    intro i ctr f _ hsucc
    rw [do_onboot_domain_loop]
    rw [if_neg (by simp)]
    rw [show f i = .success ["assigned.example.com"] from by simpa using hsucc]
    simp only [List.length_cons, List.length_nil, Nat.lt_irrefl, if_pos (by omega : 0 < 1)]
    rw [do_onboot_domain_loop]
    rw [if_pos rfl]
    simp
  | succ m ih =>
    intro i ctr f hfail hsucc
    rw [show m + 1 + 2 = (m + 2) + 1 from by omega]
    rw [do_onboot_domain_loop]
    rw [if_neg (by simp)]
    rw [show f i = .failure from by simpa using hfail 0 (by omega)]
    simp only [Bool.false_eq_true, if_false, if_true]
    have := ih (i + 1) (ctr + 1) f
      (fun j hj => by
        have := hfail (j + 1) (by omega)
        rwa [show i + (j + 1) = i + 1 + j from by omega] at this)
      (by rwa [show i + 1 + m = i + (m + 1) from by omega])
    rw [this, show ctr + 1 + m = ctr + (m + 1) from by omega]

/-- Claim C3 (amended).  In interactive mode the on-boot domain loop asks
the operator after every failed attempt and stops only on success or on an
operator decline: for every configured maximum `a` and every number `n` of
initial failures — including `n` far beyond any attempt ceiling — an
operator who always answers yes sees the loop run to success after exactly
`n` failures, and an operator decline stops the loop at once.  (The
install-time loop additionally stops after its third failed attempt — see
the counterexample.) -/
theorem c3_amended :
    (∀ (a : Int) (n : Nat),
      do_onboot_domain_loop (failsThen n) (fun _ => true) false a (n + 2) 0 0 false =
        some (true, n)) ∧
    (∀ a : Int,
      do_onboot_domain_loop (fun _ => .failure) (fun _ => false) false a 2 0 0 false =
        some (false, 1)) := by
  constructor
  · intro a n
    have := onboot_interactive_aux a n 0 0 (failsThen n)
      (fun j hj => by simp [failsThen, hj])
      (by simp [failsThen])
    simpa using this
  · intro a
    rw [do_onboot_domain_loop]
    rw [if_neg (by simp)]
    simp only [Bool.false_eq_true, if_false]

/-! ## Swap preflight (`SysConfig.create_swap`, ebsysconfig.py 62-103) -/

/-- The two distinct return shapes of `create_swap`: the bare `-1` returned
when free disk space is below the requested size plus the 128 MB margin
(ebsysconfig.py 87-89), and the `(returncode, fname, desired_size)` triple
returned after the external swap-creation command ran (line 103). -/
inductive SwapOutcome
  | diskInsufficient
  | cmdDone (code : Int) (fname : String) (size : Nat)
deriving DecidableEq

/-- One `create_swap` run: whether the external swap-creation command was
invoked, and what the function returned. -/
structure SwapRun where
  invokedCmd : Bool
  outcome : SwapOutcome
deriving DecidableEq

/-- Translation of `SysConfig.create_swap` (ebsysconfig.py 62-103) after
the unique swap file name is chosen: `freeDisk` is `psutil.disk_usage(path)
.free`, `desiredSize` the requested swap size in bytes, `cmdCode` the exit
status of the external shell command when it runs. -/
def create_swap (freeDisk desiredSize : Nat) (fname : String) (cmdCode : Int) : SwapRun :=
  let sizeRequired := desiredSize + 1024 * 1024 * 128
  if freeDisk < sizeRequired then ⟨false, .diskInsufficient⟩
  else ⟨true, .cmdDone cmdCode fname desiredSize⟩

/-- Claim C5.  Whenever free disk space is below the requested swap size
plus the fixed 128 MB safety margin, `create_swap` returns without invoking
the external swap-creation command, and its return value is the
insufficient-disk marker, which differs from every possible return value of
a run in which the swap command itself ran and failed — so the caller can
tell the two outcomes apart. -/
theorem c5_swap_preflight (freeDisk desiredSize : Nat) (fname : String) (cmdCode : Int)
    (hlow : freeDisk < desiredSize + 1024 * 1024 * 128) :
    (create_swap freeDisk desiredSize fname cmdCode).invokedCmd = false ∧
    (create_swap freeDisk desiredSize fname cmdCode).outcome = .diskInsufficient ∧
    ∀ (c : Int) (f : String) (s : Nat),
      (create_swap freeDisk desiredSize fname cmdCode).outcome ≠ SwapOutcome.cmdDone c f s := by
  refine ⟨?_, ?_, ?_⟩ <;> simp [create_swap, hlow]

/-- Claim C5, witness at a concrete undersized disk. -/
theorem c5_swap_preflight_witness :
    (create_swap 1000 1073741824 "/var/swap.bin" 0).invokedCmd = false ∧
    (create_swap 1000 1073741824 "/var/swap.bin" 0).outcome = .diskInsufficient ∧
    ∀ (c : Int) (f : String) (s : Nat),
      (create_swap 1000 1073741824 "/var/swap.bin" 0).outcome ≠ SwapOutcome.cmdDone c f s :=
  c5_swap_preflight 1000 1073741824 "/var/swap.bin" 0 (by decide)

/-! ## Destructive-confirmation prelude of `App.do_init` (cli.py 104-120) -/

/-- Result of the configuration-overwrite prelude of `do_init`: `halt` is
the early return code when the run stops there, `backedUp` records whether
`Core.backup_configuration` ran. -/
structure InitConfigPhase where
  halt : Option Int
  backedUp : Bool
deriving DecidableEq

/-- Translation of cli.py 104-120: when a non-empty configuration exists,
two `ask_proceed` confirmations are required; answering no at either one
returns 1 before the backup; only after both confirmations is the old
configuration backed up. -/
def do_init_config_phase (hasPrior : Bool) (ans1 ans2 : Bool) : InitConfigPhase :=
  if hasPrior then
    if ans1 = false then ⟨some 1, false⟩
    else if ans2 = false then ⟨some 1, false⟩
    else ⟨none, true⟩
  else ⟨none, false⟩

/-- Claim C7.  With a pre-existing non-empty configuration, an operator
answering no at the first confirmation halts the pipeline with the non-zero
result 1 and no backup (hence no mutation of the configuration has
happened); and the backup runs only when both confirmations were answered
yes. -/
theorem c7_confirm_halt :
    (∀ ans2, do_init_config_phase true false ans2 = ⟨some 1, false⟩) ∧
    (∀ ans1 ans2, (do_init_config_phase true ans1 ans2).backedUp = true →
      ans1 = true ∧ ans2 = true) := by
  constructor
  · intro ans2; rfl
  · intro ans1 ans2 hb
    cases ans1 <;> cases ans2 <;> simp_all [do_init_config_phase]

/-- Claim C7, witness: the theorem applied at concrete operator answers. -/
theorem c7_confirm_halt_witness :
    do_init_config_phase true false true = ⟨some 1, false⟩ ∧
    (true = true ∧ true = true) :=
  ⟨c7_confirm_halt.1 true, c7_confirm_halt.2 true true (by decide)⟩

/-! ## Operator prompt (`App.ask_proceed_quit`, cli.py 602-635) -/

/-- The three operator answers of the prompt. -/
inductive Proceed
  | yes
  | no
  | quit
deriving DecidableEq

/-- How one call to `ask_proceed_quit` ends: with an answer, by raising
`errors.Error`, or by entering the blocking `raw_input` loop (whose
eventual operator answer is carried for reference). -/
inductive PromptResult
  | answered (p : Proceed)
  | raised
  | blockedForInput (p : Proceed)
deriving DecidableEq

/-- Translation of `App.ask_proceed_quit` (cli.py 602-635).  In
non-interactive mode: a prompt not supporting non-interactive operation
raises; one that does returns the configured `non_interactive_return`
default when the `--yes` flag is set and raises otherwise.  Interactive
mode enters the blocking prompt loop.  (The `ValueError` branch for an
unknown default cannot arise here because the default is typed.) -/
def ask_proceed_quit (noninteractive supportNonInteractive yesFlag : Bool)
    (nonInteractiveReturn operatorAnswer : Proceed) : PromptResult :=
  if noninteractive && !supportNonInteractive then .raised
  else if noninteractive && supportNonInteractive then
    if yesFlag then .answered nonInteractiveReturn else .raised
  else .blockedForInput operatorAnswer

/-- Claim C8, counterexample.  The claim says that in unattended mode, for
every prompt, a configured default answer (the `--yes` flag) is returned.
But a prompt called without `support_non_interactive` raises even when the
`--yes` flag is set — no default answer is returned. -/
theorem c8_counterexample :
    ask_proceed_quit true false true Proceed.yes Proceed.yes = PromptResult.raised ∧
    ∀ p, ask_proceed_quit true false true Proceed.yes Proceed.yes ≠ PromptResult.answered p := by
  constructor
  · rfl
  · intro p; simp [ask_proceed_quit]

/-- Claim C8 (amended).  In unattended mode a prompt never blocks waiting
for operator input; when the prompt supports non-interactive operation and
the `--yes` flag is set, the configured default answer is returned; in
every other case — no `--yes` flag, or a prompt that does not support
non-interactive operation even with `--yes` — it fails fast by raising an
error instead of producing an answer. -/
theorem c8_amended :
    (∀ ret ans, ask_proceed_quit true true true ret ans = .answered ret) ∧
    (∀ ret ans, ask_proceed_quit true true false ret ans = .raised) ∧
    (∀ yesFlag ret ans, ask_proceed_quit true false yesFlag ret ans = .raised) ∧
    (∀ supp yesFlag ret ans p,
      ask_proceed_quit true supp yesFlag ret ans ≠ .blockedForInput p) := by
  refine ⟨fun ret ans => rfl, fun ret ans => rfl, fun y ret ans => ?_, ?_⟩
  · cases y <;> rfl
  · intro supp y ret ans p
    cases supp <;> cases y <;> simp [ask_proceed_quit]

/-- Claim C8, witness: the amended theorem applied at concrete prompts. -/
theorem c8_amended_witness :
    ask_proceed_quit true true true Proceed.quit Proceed.no = PromptResult.answered Proceed.quit ∧
    ask_proceed_quit true false true Proceed.yes Proceed.no ≠
      PromptResult.blockedForInput Proceed.yes :=
  ⟨c8_amended.1 Proceed.quit Proceed.no,
   c8_amended.2.2.2 false true Proceed.yes Proceed.no Proceed.yes⟩

/-! ## Execution guard (`App.check_pid`, cli.py 694-720)

One acquisition attempt either succeeds (`pidlock_create` returns), finds
the lock held by this very process (`PidFileAlreadyRunningError`, treated
as success), or finds it held by another process (`PidFileError`, upon
which the holder PID is printed).  The loop is given explicit fuel; `none`
means it is still running after that many iterations. -/

/-- Result of one `pidlock_create` attempt. -/
inductive PidAttempt
  | acquired
  | alreadyRunningSamePid
  | heldByOther (p : Int)
deriving DecidableEq

/-- How `check_pid` returns: an explicit boolean, or Python's implicit
`None` when the `while` loop is exited by its condition (retry disabled). -/
inductive CheckPidOutcome
  | returned (b : Bool)
  | fellThrough
deriving DecidableEq

/-- Translation of `App.check_pid` (cli.py 694-720).  `attempt` gives the
result of the i-th `pidlock_create` call, `pidlock` is `args.pidlock`
(default -1), `reported` accumulates the holder PIDs printed so far.  On a
held lock the holder PID is reported; the guard returns False once
`pidlock >= 0 and attempt_ctr > pidlock`; otherwise it sleeps and loops
again only while `retry` holds. -/
def check_pid (attempt : Nat → PidAttempt) (pidlock : Int) (retry : Bool) :
    Nat → Nat → List Int → Option (CheckPidOutcome × List Int)
  | 0, _, _ => none
  | fuel + 1, ctr, reported =>
    match attempt ctr with
    | .acquired => some (.returned true, reported)
    | .alreadyRunningSamePid => some (.returned true, reported)
    | .heldByOther p =>
      if 0 ≤ pidlock ∧ pidlock < ((ctr + 1 : Nat) : Int) then
        some (.returned false, reported ++ [p])
      else if retry then check_pid attempt pidlock retry fuel (ctr + 1) (reported ++ [p])
      else some (.fellThrough, reported ++ [p])

theorem check_pid_default_never_returns :
    ∀ fuel ctr reported,
      check_pid (fun _ => .heldByOther 4242) (-1) true fuel ctr reported = none := by
  intro fuel
  induction fuel with
  | zero => intro ctr reported; rfl
  | succ n ih =>
    intro ctr reported
    simp only [check_pid]
    rw [if_neg (by norm_num)]
    rw [if_true]
    exact ih (ctr + 1) (reported ++ [4242])

/-- Claim C9, counterexample.  With the default configuration
(`args.pidlock = -1`, `retry = True`) and the lock permanently held by
another process, the wait-and-retry loop never terminates: no amount of
fuel makes `check_pid` return.  This refutes the claim that for every
configuration of the retry parameter the guard either fails immediately or
retries at most a bounded number of times. -/
theorem c9_counterexample :
    ¬ ∃ fuel, (check_pid (fun _ => .heldByOther 4242) (-1) true fuel 0 []).isSome = true := by
  rintro ⟨fuel, hs⟩
  rw [check_pid_default_never_returns fuel 0 []] at hs
  simp at hs

theorem check_pid_bounded_aux (p : Nat) (q : Int) :
    ∀ fuel ctr reported, ctr ≤ p → fuel = p + 1 - ctr →
      check_pid (fun _ => .heldByOther q) (p : Int) true fuel ctr reported =
        some (.returned false, reported ++ List.replicate (p + 1 - ctr) q) := by
  intro fuel
  induction fuel with
  | zero => intro ctr reported h1 h2; omega
  | succ n ih =>
    intro ctr reported h1 h2
    simp only [check_pid]
    by_cases hc : ctr = p
    · rw [if_pos (by omega)]
      subst hc
      rw [show ctr + 1 - ctr = 1 from by omega]
      rfl
    · rw [if_neg (by omega)]
      rw [if_true]
      rw [ih (ctr + 1) (reported ++ [q]) (by omega) (by omega)]
      rw [List.append_assoc]
      rw [show p + 1 - ctr = (p - ctr) + 1 from by omega,
          show p + 1 - (ctr + 1) = p - ctr from by omega]
      rw [List.replicate_succ]
      rfl

/-- Claim C9 (amended).  When the lock is held by another live process the
guard reports the holder PID on every failed acquisition attempt; when the
pid-lock attempt limit is configured non-negative (`pidlock = p ≥ 0`) the
guard gives up and returns False after exactly p + 1 attempts, having
reported the holder PID p + 1 times; and with retry disabled it stops after
a single attempt.  With the default configuration `pidlock = -1` and retry
enabled, however, it retries indefinitely while the lock is held (see the
counterexample). -/
theorem c9_amended (p : Nat) (q : Int) :
    check_pid (fun _ => .heldByOther q) (p : Int) true (p + 1) 0 [] =
      some (.returned false, List.replicate (p + 1) q) ∧
    check_pid (fun _ => .heldByOther q) (-1) false 1 0 [] =
      some (.fellThrough, [q]) := by
  constructor
  · have := check_pid_bounded_aux p q (p + 1) 0 [] (by omega) (by omega)
    simpa using this
  · simp only [check_pid]
    rw [if_neg (by norm_num)]
    rw [if_neg Bool.false_ne_true]
    rfl

/-! ## Renewal pipeline decision (`App.do_renew` cli.py 349-392, `App.le_renew` cli.py 570-591) -/

/-- Modelled from the spec: `Ejbca.set_domains`/`Ejbca.hostname` and the
`LetsEncrypt` client class are not present under `src/`; per spec §4.7 and
§6 the renewal decision consumes the recorded public hostname from the
installation record and the collaborator answers `port_reachable`,
`is_certificate_ready` (ready when the recorded probe exits 0),
`test_certificate_for_renew` (due when the probe exits non-zero), and the
exit codes of the enroll/renew sub-steps; those observable answers enter
as this environment record. -/
structure RenewEnv where
  portOk : Bool
  certReady : Bool
  renewDue : Bool
  enrollRet : Int
  renewRet : Int

/-- Observable result of one renew run: the returned exit code, whether the
enroll sub-step (`le_enroll`) was called, whether the renew sub-step
(`ejbca.le_renew`) was called, and whether the "renewal not needed" report
was printed. -/
structure RenewOutcome where
  code : Int
  enrollCalled : Bool
  renewCalled : Bool
  reportedNotNeeded : Bool
deriving DecidableEq

/-- Translation of `App.le_renew` (cli.py 570-591): renewal is needed when
the force flag is set or the certificate probe (window 60*60*24*20 seconds)
reports it due; if not needed, report "renewal not needed" and return 0
without calling the renew sub-step; otherwise call it and return its code. -/
def le_renew (force : Bool) (env : RenewEnv) : RenewOutcome :=
  if (force || env.renewDue) = false then ⟨0, false, false, true⟩
  else ⟨env.renewRet, false, true, false⟩

/-- Translation of `App.le_install` (cli.py 557-568): always calls the
enroll sub-step and returns its code. -/
def le_install (env : RenewEnv) : RenewOutcome :=
  ⟨env.enrollRet, true, false, false⟩

/-- Translation of `App.do_renew` (cli.py 349-392): missing or empty
configuration → 1; missing or empty stored domain list → 1; then first
enrollment is chosen when the recorded hostname is absent, empty, or the
unconfigured default `localhost`, or when the certificate is not ready;
then the validation-port check (critical) → 10 when unreachable; finally
the run routes to the enroll or the renew sub-step. -/
def do_renew (hasConfig : Bool) (domains : Option (List String))
    (hostname : Option String) (force : Bool) (env : RenewEnv) : RenewOutcome :=
  if hasConfig = false then ⟨1, false, false, false⟩
  else
    match domains with
    | none => ⟨1, false, false, false⟩
    | some ds =>
      if ds.length = 0 then ⟨1, false, false, false⟩
      else
        let enrollFromHost : Bool :=
          match hostname with
          | none => true
          | some h => (h.length == 0) || (h == "localhost")
        let enrollNewCert : Bool := if enrollFromHost then true else !env.certReady
        if env.portOk = false then ⟨10, false, false, false⟩
        else if enrollNewCert then le_install env
        else le_renew force env

/-- Claim C6, counterexample.  A stored configuration with a usable
recorded hostname, a ready certificate outside the 20-day renewal window,
and no force flag — but an empty stored domain list: the claim says the run
reports "renewal not needed" and exits 0, yet `do_renew` stops with exit
code 1 ("No domains found in the configuration") before the renewal
decision and never reports that renewal is not needed. -/
theorem c6_counterexample :
    do_renew true (some []) (some "pki.example.com") false ⟨true, true, false, 0, 0⟩ =
      ⟨1, false, false, false⟩ := by
  decide

/-- Claim C6 (amended).  For every stored configuration whose recorded
hostname is present, non-empty and not the unconfigured default
`localhost`, whose certificate is ready, and whose certificate is not
within the 20-day pre-expiry renewal window, provided the stored domain
list is non-empty and the validation port is reachable, a renew run without
the force flag reports that renewal is not needed, returns exit code 0, and
calls neither the enrollment nor the renewal sub-step. -/
theorem c6_amended (h : String) (ds : List String) (env : RenewEnv)
    (hh1 : h.length ≠ 0) (hh2 : h ≠ "localhost") (hds : ds ≠ [])
    (hport : env.portOk = true) (hcert : env.certReady = true)
    (hdue : env.renewDue = false) :
    do_renew true (some ds) (some h) false env = ⟨0, false, false, true⟩ := by
  have hlen : ¬ ds.length = 0 := by
    cases ds with
    | nil => exact absurd rfl hds
    | cons a l => simp
  simp [do_renew, le_renew, hlen, hport, hcert, hdue, hh1, hh2]

/-- Claim C6, witness for the amended theorem at a concrete record. -/
theorem c6_amended_witness :
    do_renew true (some ["pki.example.com"]) (some "pki.example.com") false
      ⟨true, true, false, 0, 0⟩ = ⟨0, false, false, true⟩ :=
  c6_amended "pki.example.com" ["pki.example.com"] ⟨true, true, false, 0, 0⟩
    (by decide) (by decide) (by decide) rfl rfl rfl

/-! ## Configuration object (`Config`, config.py 23-64) -/

/-- The top-level JSON dictionary held by a `Config`, reduced to the one
key the accessors touch: the optional `config` sub-dictionary, kept as an
association list in insertion order. -/
structure ConfigJson (α : Type) where
  config : Option (List (String × α))

/-- The `Config` object of config.py: `json` is `None` or a dictionary. -/
structure Config (α : Type) where
  json : Option (ConfigJson α)

/-- Python dict assignment `d[k] = v` on an association list: replace the
value at every occurrence of the key if present, else append the pair. -/
def dictSet (l : List (String × α)) (k : String) (v : α) : List (String × α) :=
  if l.any (fun pr => pr.1 == k) then
    l.map (fun pr => if pr.1 == k then (k, v) else pr)
  else l ++ [(k, v)]

/-- Python dict lookup `d[k] if k in d else None`. -/
def dictGet (l : List (String × α)) (k : String) : Option α :=
  match l.find? (fun pr => pr.1 == k) with
  | some pr => some pr.2
  | none => none

/-- Translation of `Config.ensure_config` (config.py 48-52): make the json
dictionary exist, then make the `config` section exist. -/
def ensure_config (c : Config α) : Config α :=
  let j : ConfigJson α := match c.json with
    | none => ⟨none⟩
    | some jj => jj
  match j.config with
  | none => ⟨some ⟨some []⟩⟩
  | some d => ⟨some ⟨some d⟩⟩

/-- Translation of `Config.has_nonempty_config` (config.py 54-55). -/
def has_nonempty_config (c : Config α) : Bool :=
  match c.json with
  | none => false
  | some j =>
    match j.config with
    | none => false
    | some d => 0 < d.length

/-- Translation of `Config.get_config` (config.py 57-60). -/
def get_config (c : Config α) (k : String) : Option α :=
  if has_nonempty_config c then
    match c.json with
    | some j =>
      match j.config with
      | some d => dictGet d k
      | none => none
    | none => none
  else none

/-- Translation of `Config.set_config` (config.py 62-64). -/
def set_config (c : Config α) (k : String) (v : α) : Config α :=
  match (ensure_config c).json with
  | some j => ⟨some ⟨some (dictSet (j.config.getD []) k v)⟩⟩
  | none => ensure_config c

theorem dictGet_cons (pr : String × α) (rest : List (String × α)) (k : String) :
    dictGet (pr :: rest) k = if pr.1 == k then some pr.2 else dictGet rest k := by
  by_cases hp : (pr.1 == k) = true
  · simp [dictGet, List.find?, hp]
  · have hp2 : (pr.1 == k) = false := Bool.eq_false_iff.mpr hp
    simp [dictGet, List.find?, hp2]

theorem dictGet_map_replace (k : String) (v : α) :
    ∀ l : List (String × α), l.any (fun pr => pr.1 == k) = true →
      dictGet (l.map (fun pr => if pr.1 == k then (k, v) else pr)) k = some v := by
  intro l
  induction l with
  | nil => intro ha; simp at ha
  | cons pr rest ih =>
    intro ha
    rw [List.map_cons]
    by_cases hp : (pr.1 == k) = true
    · rw [if_pos hp, dictGet_cons]
      simp
    · rw [if_neg hp, dictGet_cons]
      have hp2 : (pr.1 == k) = false := Bool.eq_false_iff.mpr hp
      rw [if_neg hp]
      apply ih
      simp only [List.any_cons, hp2, Bool.false_or] at ha
      exact ha

theorem dictGet_append_new (k : String) (v : α) :
    ∀ l : List (String × α), l.any (fun pr => pr.1 == k) = false →
      dictGet (l ++ [(k, v)]) k = some v := by
  intro l
  induction l with
  | nil =>
    intro _
    rw [List.nil_append, dictGet_cons]
    simp
  | cons pr rest ih =>
    intro ha
    rw [List.cons_append, dictGet_cons]
    simp only [List.any_cons] at ha
    have hp2 : (pr.1 == k) = false := by
      cases hb : (pr.1 == k) <;> simp [hb] at ha ⊢
    rw [if_neg (by simp [hp2])]
    apply ih
    cases hr : rest.any (fun pr => pr.1 == k) <;> simp [hp2, hr] at ha ⊢

theorem dictGet_dictSet (l : List (String × α)) (k : String) (v : α) :
    dictGet (dictSet l k v) k = some v := by
  unfold dictSet
  by_cases ha : l.any (fun pr => pr.1 == k) = true
  · rw [if_pos ha]
    exact dictGet_map_replace k v l ha
  · rw [if_neg ha]
    exact dictGet_append_new k v l (Bool.eq_false_iff.mpr ha)

theorem dictSet_length_pos (l : List (String × α)) (k : String) (v : α) :
    0 < (dictSet l k v).length := by
  unfold dictSet
  by_cases ha : l.any (fun pr => pr.1 == k) = true
  · rw [if_pos ha]
    cases l with
    | nil => simp at ha
    | cons pr rest => simp
  · rw [if_neg ha]
    simp

/-- Claim C10.  For every `Config` object, key and value: after
`set_config k v`, reading `get_config k` returns exactly `v` and
`has_nonempty_config` holds — regardless of whether the underlying JSON
store was previously `None` or lacked the `config` section. -/
theorem c10_config_set_get {α : Type} (c : Config α) (k : String) (v : α) :
    get_config (set_config c k v) k = some v ∧
    has_nonempty_config (set_config c k v) = true := by
  have hset : ∃ dl, set_config c k v = ⟨some ⟨some (dictSet dl k v)⟩⟩ := by
    cases hj : c.json with
    | none => exact ⟨[], by simp [set_config, ensure_config, hj]⟩
    | some j =>
      cases hc : j.config with
      | none => exact ⟨[], by simp [set_config, ensure_config, hj, hc]⟩
      | some d => exact ⟨d, by simp [set_config, ensure_config, hj, hc]⟩
  obtain ⟨dl, hd⟩ := hset
  rw [hd]
  have hne : has_nonempty_config (⟨some ⟨some (dictSet dl k v)⟩⟩ : Config α) = true := by
    simp [has_nonempty_config, dictSet_length_pos]
  refine ⟨?_, hne⟩
  simp [get_config, hne, dictGet_dictSet]
